import Mathlib

/-!
# Shallow embedding of the uber-pipeline-mage ETL core

This file embeds the transformation engine of the repository in Lean 4 and
proves the frozen specification claims against it.  The repository contains
two implementation variants of the pipeline:

* the DuckDB SQL variant (`src/etl/extract.py`, `src/etl/transform.py`,
  `src/etl/load.py`), embedded below in namespace `etl` and `load`;
* the Mage/pandas variant (`mage_files/uber_data_transformer.py`,
  `mage_files/uber_data_exporter.py`), embedded in namespace `mage`.

Modelling choices (documented once here):

* SQL tables and pandas data frames become Lean lists of structures; the
  list order is the table/frame row order.
* Timestamps are Unix epoch seconds (`Int`); `EXTRACT(EPOCH FROM (a - b))`
  and pandas `total_seconds()` both become plain integer subtraction.
* Monetary amounts, distances and coordinates are `Rat` (the source uses
  machine floats; the claims under verification only involve exact decimal
  values, where rational arithmetic agrees).
* `ROW_NUMBER() OVER ()` / `range(len(df))` become the `rowNumber`
  combinator, numbering from 1 (SQL) resp. 0 (pandas).
* SQL `GROUP BY` key order and pandas `Series.unique()` are modelled as
  first-appearance order (`dedupFirst`), which is exactly what
  `Series.unique()` guarantees and the deterministic choice for `GROUP BY`.
-/

/-! ## Generic list helpers -/

/-- Distinct elements of a list in first-appearance order, skipping anything
already in `seen`.  Models pandas `Series.unique()` and the grouping keys of
a SQL `GROUP BY`. -/
def dedupFirstAux {α : Type} [DecidableEq α] : List α → List α → List α
  | _, [] => []
  | seen, a :: as =>
    if a ∈ seen then dedupFirstAux seen as
    else a :: dedupFirstAux (a :: seen) as

/-- Distinct elements of a list, in first-appearance order. -/
def dedupFirst {α : Type} [DecidableEq α] (l : List α) : List α :=
  dedupFirstAux [] l

theorem mem_dedupFirstAux {α : Type} [DecidableEq α] (l seen : List α) (x : α) :
    x ∈ dedupFirstAux seen l ↔ x ∈ l ∧ x ∉ seen := by
  induction l generalizing seen with
  | nil => simp [dedupFirstAux]
  | cons a as ih =>
    by_cases ha : a ∈ seen
    · simp only [dedupFirstAux, if_pos ha, ih, List.mem_cons]
      constructor
      · rintro ⟨hx, hs⟩; exact ⟨Or.inr hx, hs⟩
      · rintro ⟨hx | hx, hs⟩
        · exact absurd (hx ▸ ha) hs
        · exact ⟨hx, hs⟩
    · simp only [dedupFirstAux, if_neg ha, List.mem_cons, ih, not_or]
      constructor
      · rintro (rfl | ⟨hx, hxa, hxs⟩)
        · exact ⟨Or.inl rfl, ha⟩
        · exact ⟨Or.inr hx, hxs⟩
      · rintro ⟨rfl | hx, hs⟩
        · exact Or.inl rfl
        · by_cases hxa : x = a
          · exact Or.inl hxa
          · exact Or.inr ⟨hx, hxa, hs⟩

theorem mem_dedupFirst {α : Type} [DecidableEq α] (l : List α) (x : α) :
    x ∈ dedupFirst l ↔ x ∈ l := by
  simp [dedupFirst, mem_dedupFirstAux]

theorem nodup_dedupFirstAux {α : Type} [DecidableEq α] (l seen : List α) :
    (dedupFirstAux seen l).Nodup := by
  induction l generalizing seen with
  | nil => simp [dedupFirstAux]
  | cons a as ih =>
    by_cases ha : a ∈ seen
    · simpa [dedupFirstAux, if_pos ha] using ih seen
    · simp only [dedupFirstAux, if_neg ha]
      refine List.Nodup.cons ?_ (ih (a :: seen))
      intro hmem
      exact ((mem_dedupFirstAux as (a :: seen) a).mp hmem).2 (List.mem_cons_self a seen)

theorem nodup_dedupFirst {α : Type} [DecidableEq α] (l : List α) :
    (dedupFirst l).Nodup :=
  nodup_dedupFirstAux l []

/-- Number the elements of a list with consecutive indices starting at `n`,
building one output row per element.  Models `ROW_NUMBER() OVER ()` (start
at 1) and `range(len(df))` (start at 0). -/
def rowNumber {κ ρ : Type} (f : Nat → κ → ρ) : Nat → List κ → List ρ
  | _, [] => []
  | n, k :: ks => f n k :: rowNumber f (n + 1) ks

theorem rowNumber_length {κ ρ : Type} (f : Nat → κ → ρ) (n : Nat) (ks : List κ) :
    (rowNumber f n ks).length = ks.length := by
  induction ks generalizing n with
  | nil => rfl
  | cons k ks ih => simp [rowNumber, ih]

theorem rowNumber_get? {κ ρ : Type} (f : Nat → κ → ρ) (n i : Nat) (ks : List κ) :
    (rowNumber f n ks).get? i = (ks.get? i).map (f (n + i)) := by
  induction ks generalizing n i with
  | nil => simp [rowNumber]
  | cons k ks ih =>
    cases i with
    | zero => simp [rowNumber]
    | succ j =>
      simp only [rowNumber, List.get?_cons_succ, ih (n + 1) j]
      have : n + 1 + j = n + (j + 1) := by omega
      rw [this]

theorem rowNumber_map_key {κ ρ σ : Type} (f : Nat → κ → ρ) (key : ρ → σ) (g : κ → σ)
    (hf : ∀ n k, key (f n k) = g k) (n : Nat) (ks : List κ) :
    (rowNumber f n ks).map key = ks.map g := by
  induction ks generalizing n with
  | nil => rfl
  | cons k ks ih => simp [rowNumber, hf, ih]

theorem rowNumber_exists_key {κ ρ σ : Type} (f : Nat → κ → ρ) (key : ρ → σ) (g : κ → σ)
    (hf : ∀ n k, key (f n k) = g k) (n : Nat) (ks : List κ) (k : κ) (hk : k ∈ ks) :
    ∃ r ∈ rowNumber f n ks, key r = g k := by
  induction ks generalizing n with
  | nil => cases hk
  | cons a as ih =>
    rcases List.mem_cons.mp hk with rfl | hk
    · exact ⟨f n k, List.mem_cons_self _ _, hf n k⟩
    · obtain ⟨r, hr, hkey⟩ := ih (n + 1) hk
      exact ⟨r, List.mem_cons_of_mem _ hr, hkey⟩

theorem rowNumber_mem {κ ρ : Type} (f : Nat → κ → ρ) (n : Nat) (ks : List κ)
    (r : ρ) (hr : r ∈ rowNumber f n ks) : ∃ j k, k ∈ ks ∧ r = f j k := by
  induction ks generalizing n with
  | nil => cases hr
  | cons a as ih =>
    rcases List.mem_cons.mp hr with rfl | hr
    · exact ⟨n, a, List.mem_cons_self _ _, rfl⟩
    · obtain ⟨j, k, hk, hrk⟩ := ih (n + 1) hr
      exact ⟨j, k, List.mem_cons_of_mem _ hk, hrk⟩

theorem rowNumber_countP_id_lt {κ ρ : Type} (f : Nat → κ → ρ) (key : ρ → Int)
    (hf : ∀ n k, key (f n k) = (n : Int)) (m : Nat) (x : Int) (hx : x < (m : Int))
    (ks : List κ) :
    (rowNumber f m ks).countP (fun r => decide (key r = x)) = 0 := by
  induction ks generalizing m with
  | nil => rfl
  | cons k ks ih =>
    have hne : ¬ key (f m k) = x := by rw [hf]; omega
    have hx' : x < ((m + 1 : Nat) : Int) := by push_cast; omega
    simp [rowNumber, List.countP_cons, hne, ih (m + 1) hx']

theorem rowNumber_countP_id {κ ρ : Type} (f : Nat → κ → ρ) (key : ρ → Int)
    (hf : ∀ n k, key (f n k) = (n : Int)) (m i : Nat) (ks : List κ) :
    (rowNumber f m ks).countP (fun r => decide (key r = ((m + i : Nat) : Int)))
      = if i < ks.length then 1 else 0 := by
  induction ks generalizing m i with
  | nil => simp [rowNumber]
  | cons k ks ih =>
    cases i with
    | zero =>
      have htail : (rowNumber f (m + 1) ks).countP
          (fun r => decide (key r = (m : Int))) = 0 := by
        apply rowNumber_countP_id_lt f key hf
        push_cast; omega
      simp [rowNumber, List.countP_cons, hf, htail]
    | succ j =>
      have hhead : ¬ key (f m k) = ((m + (j + 1) : Nat) : Int) := by
        rw [hf]; push_cast; omega
      have htail := ih (m + 1) j
      have harg : ((m + 1 + j : Nat) : Int) = ((m + (j + 1) : Nat) : Int) := by
        push_cast; ring
      rw [harg] at htail
      simp only [rowNumber, List.countP_cons, hhead, decide_eq_true_eq, if_false,
        List.length_cons, htail]
      simp [Nat.succ_lt_succ_iff]

/-- Insert an element into a list sorted by `le`; auxiliary to `sortBy`. -/
def insertSorted {α : Type} (le : α → α → Bool) (a : α) : List α → List α
  | [] => [a]
  | b :: bs => if le a b then a :: b :: bs else b :: insertSorted le a bs

/-- Insertion sort; models SQL `ORDER BY` on group keys. -/
def sortBy {α : Type} (le : α → α → Bool) : List α → List α
  | [] => []
  | a :: as => insertSorted le a (sortBy le as)

theorem flatMap_length_one {α β : Type} (rs : List α) (g : α → List β)
    (h : ∀ s ∈ rs, (g s).length = 1) : (rs.flatMap g).length = rs.length := by
  induction rs with
  | nil => rfl
  | cons a as ih =>
    simp only [List.flatMap_cons, List.length_append, List.length_cons]
    rw [h a (List.mem_cons_self _ _), ih (fun s hs => h s (List.mem_cons_of_mem _ hs))]
    omega

theorem flatMap_singleton_get? {α β : Type} (rs : List α) (g : α → List β) (pr : β → α)
    (h : ∀ s ∈ rs, ∃ t, g s = [t] ∧ pr t = s) (i : Nat) :
    ((rs.flatMap g).get? i).map pr = rs.get? i := by
  induction rs generalizing i with
  | nil => simp
  | cons a as ih =>
    obtain ⟨t, hgt, hpr⟩ := h a (List.mem_cons_self _ _)
    have hrest : ∀ s ∈ as, ∃ t, g s = [t] ∧ pr t = s :=
      fun s hs => h s (List.mem_cons_of_mem _ hs)
    cases i with
    | zero => simp [List.flatMap_cons, hgt, hpr]
    | succ j => simpa [List.flatMap_cons, hgt] using ih hrest j

theorem filter_key_nil {ρ κ : Type} [DecidableEq κ] (key : ρ → κ) (xs : List ρ)
    (c : κ) (hc : c ∉ xs.map key) :
    xs.filter (fun r => decide (key r = c)) = [] := by
  induction xs with
  | nil => rfl
  | cons a as ih =>
    simp only [List.map_cons, List.mem_cons, not_or] at hc
    have hne : ¬ key a = c := fun h => hc.1 h.symm
    simp [List.filter_cons, hne, ih hc.2]

theorem filter_key_singleton {ρ κ : Type} [DecidableEq κ] (key : ρ → κ) (xs : List ρ)
    (hn : (xs.map key).Nodup) (x : ρ) (hx : x ∈ xs) :
    xs.filter (fun r => decide (key r = key x)) = [x] := by
  induction xs with
  | nil => cases hx
  | cons a as ih =>
    simp only [List.map_cons, List.nodup_cons] at hn
    rcases List.mem_cons.mp hx with rfl | hx
    · have : as.filter (fun r => decide (key r = key x)) = [] :=
        filter_key_nil key as (key x) hn.1
      simp [List.filter_cons, this]
    · have hne : ¬ key a = key x := by
        intro h
        exact hn.1 (h ▸ List.mem_map_of_mem key hx)
      simp [List.filter_cons, hne, ih hn.2 hx]

/-! ## Data model -/

/-- One raw trip record of the staging table / input data frame.  Fields and
names follow the required-column list in `src/etl/extract.py`
(`validate_data`).  Timestamps are epoch seconds. -/
structure RawRecord where
  pickup_datetime : Int
  dropoff_datetime : Int
  pickup_latitude : Rat
  pickup_longitude : Rat
  dropoff_latitude : Rat
  dropoff_longitude : Rat
  passenger_count : Int
  trip_distance : Rat
  fare_amount : Rat
  tip_amount : Rat
  total_amount : Rat
  payment_type : Int
deriving DecidableEq, Repr

/-! ## Calendar decomposition of epoch timestamps

`EXTRACT(HOUR/DAY/MONTH/YEAR/DOW FROM ts)` in DuckDB and the pandas `.dt`
accessors, for a UTC epoch-second timestamp.  The civil-date conversion is
the standard days-to-date algorithm over floor division. -/

def epochDay (t : Int) : Int := Int.fdiv t 86400

def hourOf (t : Int) : Int := Int.fdiv (Int.emod t 86400) 3600

/-- Civil `(year, month, day)` of a day count since 1970-01-01. -/
def civilOfDays (z0 : Int) : Int × Int × Int :=
  let z := z0 + 719468
  let era : Int := Int.fdiv z 146097
  let doe : Int := z - era * 146097
  let yoe : Int := Int.fdiv (doe - Int.fdiv doe 1460 + Int.fdiv doe 36524 - Int.fdiv doe 146096) 365
  let y : Int := yoe + era * 400
  let doy : Int := doe - (365 * yoe + Int.fdiv yoe 4 - Int.fdiv yoe 100)
  let mp : Int := Int.fdiv (5 * doy + 2) 153
  let d : Int := doy - Int.fdiv (153 * mp + 2) 5 + 1
  let m : Int := mp + (if mp < 10 then 3 else -9)
  (y + (if m ≤ 2 then 1 else 0), m, d)

def yearOf (t : Int) : Int := (civilOfDays (epochDay t)).1

def monthOf (t : Int) : Int := (civilOfDays (epochDay t)).2.1

def dayOf (t : Int) : Int := (civilOfDays (epochDay t)).2.2

/-- DuckDB `EXTRACT(DOW ...)`: Sunday = 0. -/
def dowSunday0 (t : Int) : Int := Int.emod (epochDay t + 4) 7

/-- pandas `.dt.weekday`: Monday = 0. -/
def weekdayMonday0 (t : Int) : Int := Int.emod (epochDay t + 3) 7

/-! ## The DuckDB SQL variant (`src/etl/transform.py`) -/

namespace etl

/-- Row of `dim_datetime` (`transform_datetime_dimension`): one row per
staging row, no deduplication; `datetime_id = ROW_NUMBER() OVER ()`. -/
structure DatetimeRow where
  datetime_id : Int
  pickup_datetime : Int
  pickup_hour : Int
  pickup_day : Int
  pickup_month : Int
  pickup_year : Int
  pickup_weekday : Int
  dropoff_datetime : Int
  dropoff_hour : Int
  dropoff_day : Int
  dropoff_month : Int
  dropoff_year : Int
  dropoff_weekday : Int
deriving DecidableEq, Repr

/-- Row of `dim_location` (`transform_location_dimension`): one row per
distinct coordinate 4-tuple (`GROUP BY` the four coordinates). -/
structure LocationRow where
  location_id : Int
  pickup_latitude : Rat
  pickup_longitude : Rat
  dropoff_latitude : Rat
  dropoff_longitude : Rat
  pickup_location_name : String
  dropoff_location_name : String
deriving DecidableEq, Repr

/-- Row of `dim_payment` (`transform_payment_dimension`): one row per
distinct payment-type code. -/
structure PaymentRow where
  payment_id : Int
  payment_type : Int
  payment_name : String
  payment_description : String
deriving DecidableEq, Repr

/-- Row of `dim_passenger` (`transform_passenger_dimension`): one row per
distinct passenger count. -/
structure PassengerRow where
  passenger_id : Int
  passenger_count : Int
deriving DecidableEq, Repr

/-- Row of `fact_trips` (`transform_fact_table`). -/
structure FactRow where
  trip_id : Int
  datetime_id : Int
  location_id : Int
  payment_id : Int
  passenger_id : Int
  trip_distance : Rat
  fare_amount : Rat
  tip_amount : Rat
  total_amount : Rat
  trip_duration : Int
deriving DecidableEq, Repr

/-- The `CASE payment_type ... END` expression producing `payment_name`. -/
def paymentName (c : Int) : String :=
  if c = 1 then "Credit Card"
  else if c = 2 then "Cash"
  else if c = 3 then "No Charge"
  else if c = 4 then "Dispute"
  else "Unknown"

/-- The `CASE payment_type ... END` expression producing
`payment_description`. -/
def paymentDescr (c : Int) : String :=
  if c = 1 then "Payment by credit card"
  else if c = 2 then "Cash payment"
  else if c = 3 then "Free ride"
  else if c = 4 then "Disputed charge"
  else "Unknown payment type"

/-- Natural key of the datetime join: the `(pickup, dropoff)` pair. -/
def dtKey (r : RawRecord) : Int × Int := (r.pickup_datetime, r.dropoff_datetime)

def dtRowKey (d : DatetimeRow) : Int × Int := (d.pickup_datetime, d.dropoff_datetime)

/-- Natural key of the location join: the coordinate 4-tuple. -/
def locKey (r : RawRecord) : Rat × Rat × Rat × Rat :=
  (r.pickup_latitude, r.pickup_longitude, r.dropoff_latitude, r.dropoff_longitude)

def locRowKey (l : LocationRow) : Rat × Rat × Rat × Rat :=
  (l.pickup_latitude, l.pickup_longitude, l.dropoff_latitude, l.dropoff_longitude)

/-- The `SELECT` list of `transform_datetime_dimension` for one staging row
with row number `n`. -/
def mkDatetimeRow (n : Nat) (r : RawRecord) : DatetimeRow :=
  { datetime_id := (n : Int)
    pickup_datetime := r.pickup_datetime
    pickup_hour := hourOf r.pickup_datetime
    pickup_day := dayOf r.pickup_datetime
    pickup_month := monthOf r.pickup_datetime
    pickup_year := yearOf r.pickup_datetime
    pickup_weekday := dowSunday0 r.pickup_datetime
    dropoff_datetime := r.dropoff_datetime
    dropoff_hour := hourOf r.dropoff_datetime
    dropoff_day := dayOf r.dropoff_datetime
    dropoff_month := monthOf r.dropoff_datetime
    dropoff_year := yearOf r.dropoff_datetime
    dropoff_weekday := dowSunday0 r.dropoff_datetime }

/-- `transform_datetime_dimension`: `INSERT INTO dim_datetime SELECT
ROW_NUMBER() OVER (), pickup_datetime, EXTRACT(...) ... FROM
staging_uber_rides` — one output row per staging row. -/
def transform_datetime_dimension (rs : List RawRecord) : List DatetimeRow :=
  rowNumber mkDatetimeRow 1 rs

/-- The `SELECT` list of `transform_location_dimension` for one coordinate
group with row number `n`. -/
def mkLocationRow (n : Nat) (k : Rat × Rat × Rat × Rat) : LocationRow :=
  { location_id := (n : Int)
    pickup_latitude := k.1
    pickup_longitude := k.2.1
    dropoff_latitude := k.2.2.1
    dropoff_longitude := k.2.2.2
    pickup_location_name := "NYC Area"
    dropoff_location_name := "NYC Area" }

/-- `transform_location_dimension`: `GROUP BY` the four coordinates, keys in
first-appearance order, `location_id = ROW_NUMBER() OVER ()`. -/
def transform_location_dimension (rs : List RawRecord) : List LocationRow :=
  rowNumber mkLocationRow 1 (dedupFirst (rs.map locKey))

/-- The `SELECT` list of `transform_payment_dimension` for one payment-code
group with row number `n`. -/
def mkPaymentRow (n : Nat) (c : Int) : PaymentRow :=
  { payment_id := (n : Int)
    payment_type := c
    payment_name := paymentName c
    payment_description := paymentDescr c }

/-- `transform_payment_dimension`: `GROUP BY payment_type` with the fixed
`CASE` lookups for name and description. -/
def transform_payment_dimension (rs : List RawRecord) : List PaymentRow :=
  rowNumber mkPaymentRow 1 (dedupFirst (rs.map (·.payment_type)))

/-- The `SELECT` list of `transform_passenger_dimension`. -/
def mkPassengerRow (n : Nat) (c : Int) : PassengerRow :=
  { passenger_id := (n : Int)
    passenger_count := c }

/-- `transform_passenger_dimension`: `GROUP BY passenger_count`. -/
def transform_passenger_dimension (rs : List RawRecord) : List PassengerRow :=
  rowNumber mkPassengerRow 1 (dedupFirst (rs.map (·.passenger_count)))

/-- One joined tuple of the fact query. -/
def JoinTuple : Type :=
  RawRecord × DatetimeRow × LocationRow × PaymentRow × PassengerRow

/-- All dimension rows matching one staging row `s` under the `JOIN ... ON`
value-equality conditions of `transform_fact_table`. -/
def joinMatches (dd : List DatetimeRow) (dl : List LocationRow)
    (dp : List PaymentRow) (dq : List PassengerRow) (s : RawRecord) :
    List JoinTuple :=
  (dd.filter fun d =>
      decide (d.pickup_datetime = s.pickup_datetime ∧
              d.dropoff_datetime = s.dropoff_datetime)).flatMap fun d =>
  (dl.filter fun l =>
      decide (l.pickup_latitude = s.pickup_latitude ∧
              l.pickup_longitude = s.pickup_longitude ∧
              l.dropoff_latitude = s.dropoff_latitude ∧
              l.dropoff_longitude = s.dropoff_longitude)).flatMap fun l =>
  (dp.filter fun p => decide (p.payment_type = s.payment_type)).flatMap fun p =>
  (dq.filter fun q => decide (q.passenger_count = s.passenger_count)).map fun q =>
  (s, d, l, p, q)

/-- The joined relation of the fact query, staging rows scanned in order. -/
def joinTuples (rs : List RawRecord) : List JoinTuple :=
  rs.flatMap (joinMatches (transform_datetime_dimension rs)
    (transform_location_dimension rs) (transform_payment_dimension rs)
    (transform_passenger_dimension rs))

/-- The `SELECT` list of `transform_fact_table` for one joined tuple with
row number `n`:
`trip_duration = EXTRACT(EPOCH FROM (dropoff_datetime - pickup_datetime))`. -/
def mkFactRow (n : Nat) (t : JoinTuple) : FactRow :=
  { trip_id := (n : Int)
    datetime_id := t.2.1.datetime_id
    location_id := t.2.2.1.location_id
    payment_id := t.2.2.2.1.payment_id
    passenger_id := t.2.2.2.2.passenger_id
    trip_distance := t.1.trip_distance
    fare_amount := t.1.fare_amount
    tip_amount := t.1.tip_amount
    total_amount := t.1.total_amount
    trip_duration := t.1.dropoff_datetime - t.1.pickup_datetime }

/-- `transform_fact_table`: the four inner value-equality joins, then
`trip_id = ROW_NUMBER() OVER ()`. -/
def transform_fact_table (rs : List RawRecord) : List FactRow :=
  rowNumber mkFactRow 1 (joinTuples rs)

/-- `validate_transformations`: the orphan-count query has exactly two
branches — fact rows whose `datetime_id` is missing from `dim_datetime` and
fact rows whose `location_id` is missing from `dim_location` — and the loop
raises on the first nonzero count.  No other foreign key and no measure is
checked. -/
def validate_transformations (fact : List FactRow) (dd : List DatetimeRow)
    (dl : List LocationRow) : Except String Unit :=
  let orphanedDatetime :=
    (fact.filter fun f => !(dd.any fun d => decide (d.datetime_id = f.datetime_id))).length
  let orphanedLocation :=
    (fact.filter fun f => !(dl.any fun l => decide (l.location_id = f.location_id))).length
  if orphanedDatetime > 0 then
    Except.error ("Found " ++ toString orphanedDatetime ++ " orphaned records in fact_trips")
  else if orphanedLocation > 0 then
    Except.error ("Found " ++ toString orphanedLocation ++ " orphaned records in fact_trips")
  else Except.ok ()

end etl

/-! ## The Mage/pandas variant (`mage_files/uber_data_transformer.py`) -/

namespace mage

/-- Row of the Mage `dim_datetime`: `datetime_id = range(len(df))`, one row
per raw record, pickup fields only. -/
structure DatetimeRow where
  datetime_id : Int
  pickup_datetime : Int
  pickup_hour : Int
  pickup_day : Int
  pickup_month : Int
  pickup_year : Int
  pickup_weekday : Int
deriving DecidableEq, Repr

/-- Row of the Mage `dim_location`: `location_id = range(len(df))`, one row
per raw record — no deduplication of coordinate tuples. -/
structure LocationRow where
  location_id : Int
  pickup_latitude : Rat
  pickup_longitude : Rat
  dropoff_latitude : Rat
  dropoff_longitude : Rat
deriving DecidableEq, Repr

/-- Row of the Mage `dim_payment`: `payment_name` holds the raw
payment-type code from `df['payment_type'].unique()` — the variant applies
no code-to-name lookup. -/
structure PaymentRow where
  payment_id : Int
  payment_name : Int
deriving DecidableEq, Repr

/-- Row of the Mage `dim_passenger`. -/
structure PassengerRow where
  passenger_id : Int
  passenger_count : Int
deriving DecidableEq, Repr

/-- Row of the Mage `fact_trips`.  `payment_id` and `passenger_id` come from
pandas `.map` over a dict and may be missing (`NaN`), hence `Option`. -/
structure FactRow where
  trip_id : Int
  datetime_id : Int
  location_id : Int
  payment_id : Option Int
  passenger_id : Option Int
  trip_distance : Rat
  trip_duration : Int
  fare_amount : Rat
  tip_amount : Rat
  total_amount : Rat
deriving DecidableEq, Repr

/-- One row of the Mage `dim_datetime` frame at index `n`. -/
def mkDatetimeRow (n : Nat) (r : RawRecord) : DatetimeRow :=
  { datetime_id := (n : Int)
    pickup_datetime := r.pickup_datetime
    pickup_hour := hourOf r.pickup_datetime
    pickup_day := dayOf r.pickup_datetime
    pickup_month := monthOf r.pickup_datetime
    pickup_year := yearOf r.pickup_datetime
    pickup_weekday := weekdayMonday0 r.pickup_datetime }

/-- `dim_datetime` of `transform_data`: index-keyed, pickup decomposition
via the pandas `.dt` accessors (`weekday` is Monday = 0). -/
def dim_datetime (df : List RawRecord) : List DatetimeRow :=
  rowNumber mkDatetimeRow 0 df

/-- One row of the Mage `dim_location` frame at index `n`. -/
def mkLocationRow (n : Nat) (r : RawRecord) : LocationRow :=
  { location_id := (n : Int)
    pickup_latitude := r.pickup_latitude
    pickup_longitude := r.pickup_longitude
    dropoff_latitude := r.dropoff_latitude
    dropoff_longitude := r.dropoff_longitude }

/-- `dim_location` of `transform_data`: one row per raw record. -/
def dim_location (df : List RawRecord) : List LocationRow :=
  rowNumber mkLocationRow 0 df

/-- One row of the Mage `dim_payment` frame at index `n`. -/
def mkPaymentRow (n : Nat) (c : Int) : PaymentRow :=
  { payment_id := (n : Int), payment_name := c }

/-- `dim_payment` of `transform_data`: `payment_id = range(n)` over
`df['payment_type'].unique()` (first-appearance order); the name column is
the raw code. -/
def dim_payment (df : List RawRecord) : List PaymentRow :=
  rowNumber mkPaymentRow 0 (dedupFirst (df.map (·.payment_type)))

/-- One row of the Mage `dim_passenger` frame at index `n`. -/
def mkPassengerRow (n : Nat) (c : Int) : PassengerRow :=
  { passenger_id := (n : Int), passenger_count := c }

/-- `dim_passenger` of `transform_data`. -/
def dim_passenger (df : List RawRecord) : List PassengerRow :=
  rowNumber mkPassengerRow 0 (dedupFirst (df.map (·.passenger_count)))

/-- `df['payment_type'].map(dict(zip(dim_payment['payment_name'],
dim_payment['payment_id'])))` — value lookup into the payment dimension. -/
def paymentIdOf (df : List RawRecord) (c : Int) : Option Int :=
  ((dim_payment df).find? fun p => decide (p.payment_name = c)).map (·.payment_id)

/-- `df['passenger_count'].map(dict(zip(...)))`. -/
def passengerIdOf (df : List RawRecord) (c : Int) : Option Int :=
  ((dim_passenger df).find? fun p => decide (p.passenger_count = c)).map (·.passenger_id)

/-- One row of the Mage `fact_trips` frame at index `n`, built from raw
record `r` with the two value lookups against the dimensions of `df`. -/
def mkFactRow (df : List RawRecord) (n : Nat) (r : RawRecord) : FactRow :=
  { trip_id := (n : Int)
    datetime_id := (n : Int)
    location_id := (n : Int)
    payment_id := paymentIdOf df r.payment_type
    passenger_id := passengerIdOf df r.passenger_count
    trip_distance := r.trip_distance
    trip_duration := r.dropoff_datetime - r.pickup_datetime
    fare_amount := r.fare_amount
    tip_amount := r.tip_amount
    total_amount := r.total_amount }

/-- The `fact_trips` frame of `transform_data`: `trip_id`, `datetime_id` and
`location_id` are all the frame index `range(len(df))`; payment and
passenger keys are value lookups; `trip_duration` is
`(dropoff - pickup).total_seconds()`. -/
def fact_trips (df : List RawRecord) : List FactRow :=
  rowNumber (mkFactRow df) 0 df

/-- `validate_transformed_data`: null check on the five key columns (in this
model only `payment_id`/`passenger_id` can be missing), then the three
value-domain checks, each raising a `ValueError` naming the field; the
interpolated per-field null counts of the first message are omitted. -/
def validate_transformed_data (df : List FactRow) : Except String (List FactRow) :=
  if df.any fun r => r.payment_id.isNone || r.passenger_id.isNone then
    Except.error "Found null values in key fields"
  else if df.any fun r => decide (r.trip_distance < 0) then
    Except.error "Found negative trip distances"
  else if df.any fun r => decide (r.trip_duration < 0) then
    Except.error "Found negative trip durations"
  else if df.any fun r => decide (r.fare_amount < 0) then
    Except.error "Found negative fare amounts"
  else Except.ok df

end mage

/-! ## Analytics views and summary (`src/etl/load.py`) -/

namespace load

structure HourlyFareRow where
  pickup_hour : Int
  avg_fare : Rat
  num_trips : Nat
  avg_tip : Rat
  avg_total : Rat
deriving DecidableEq, Repr

structure PopularLocationRow where
  pickup_latitude : Rat
  pickup_longitude : Rat
  num_pickups : Nat
  avg_fare : Rat
  avg_distance : Rat
  avg_duration : Rat
deriving DecidableEq, Repr

structure PaymentAnalysisRow where
  payment_name : String
  num_trips : Nat
  avg_fare : Rat
  avg_tip : Rat
  avg_total : Rat
  avg_distance : Rat
deriving DecidableEq, Repr

structure DailyStatsRow where
  pickup_year : Int
  pickup_month : Int
  pickup_day : Int
  num_trips : Nat
  avg_fare : Rat
  total_revenue : Rat
  avg_distance : Rat
  avg_duration : Rat
deriving DecidableEq, Repr

/-- `AVG(...)` over one group. -/
def ratAvg (l : List Rat) : Rat := l.sum / (l.length : Rat)

/-- `vw_hourly_fares`: fact joined to `dim_datetime` on `datetime_id`,
grouped by pickup hour, ordered by hour ascending. -/
def vw_hourly_fares (fact : List etl.FactRow) (dd : List etl.DatetimeRow) :
    List HourlyFareRow :=
  let joined := fact.flatMap fun f =>
    (dd.filter fun d => decide (f.datetime_id = d.datetime_id)).map fun d => (f, d)
  (sortBy (fun a b => decide (a ≤ b))
      (dedupFirst (joined.map fun fd => fd.2.pickup_hour))).map fun h =>
    let grp := joined.filter fun fd => decide (fd.2.pickup_hour = h)
    { pickup_hour := h
      avg_fare := ratAvg (grp.map fun fd => fd.1.fare_amount)
      num_trips := grp.length
      avg_tip := ratAvg (grp.map fun fd => fd.1.tip_amount)
      avg_total := ratAvg (grp.map fun fd => fd.1.total_amount) }

/-- `vw_popular_locations`: fact joined to `dim_location` on `location_id`,
grouped by pickup coordinate pair, ordered by pickup count descending. -/
def vw_popular_locations (fact : List etl.FactRow) (dl : List etl.LocationRow) :
    List PopularLocationRow :=
  let joined := fact.flatMap fun f =>
    (dl.filter fun l => decide (f.location_id = l.location_id)).map fun l => (f, l)
  sortBy (fun a b => decide (b.num_pickups ≤ a.num_pickups))
    ((dedupFirst (joined.map fun fl =>
        (fl.2.pickup_latitude, fl.2.pickup_longitude))).map fun k =>
      let grp := joined.filter fun fl =>
        decide (fl.2.pickup_latitude = k.1 ∧ fl.2.pickup_longitude = k.2)
      { pickup_latitude := k.1
        pickup_longitude := k.2
        num_pickups := grp.length
        avg_fare := ratAvg (grp.map fun fl => fl.1.fare_amount)
        avg_distance := ratAvg (grp.map fun fl => fl.1.trip_distance)
        avg_duration := ratAvg (grp.map fun fl => (fl.1.trip_duration : Rat)) })

/-- `vw_payment_analysis`: fact joined to `dim_payment` on `payment_id`,
grouped by payment name (group keys in first-appearance order). -/
def vw_payment_analysis (fact : List etl.FactRow) (dp : List etl.PaymentRow) :
    List PaymentAnalysisRow :=
  let joined := fact.flatMap fun f =>
    (dp.filter fun p => decide (f.payment_id = p.payment_id)).map fun p => (f, p)
  (dedupFirst (joined.map fun fp => fp.2.payment_name)).map fun nm =>
    let grp := joined.filter fun fp => decide (fp.2.payment_name = nm)
    { payment_name := nm
      num_trips := grp.length
      avg_fare := ratAvg (grp.map fun fp => fp.1.fare_amount)
      avg_tip := ratAvg (grp.map fun fp => fp.1.tip_amount)
      avg_total := ratAvg (grp.map fun fp => fp.1.total_amount)
      avg_distance := ratAvg (grp.map fun fp => fp.1.trip_distance) }

/-- Lexicographic year/month/day comparison for `ORDER BY pickup_year,
pickup_month, pickup_day`. -/
def ymdLe (a b : Int × Int × Int) : Bool :=
  decide (a.1 < b.1 ∨ (a.1 = b.1 ∧ (a.2.1 < b.2.1 ∨ (a.2.1 = b.2.1 ∧ a.2.2 ≤ b.2.2))))

/-- `vw_daily_stats`: fact joined to `dim_datetime`, grouped by
`(pickup_year, pickup_month, pickup_day)`, ordered chronologically. -/
def vw_daily_stats (fact : List etl.FactRow) (dd : List etl.DatetimeRow) :
    List DailyStatsRow :=
  let joined := fact.flatMap fun f =>
    (dd.filter fun d => decide (f.datetime_id = d.datetime_id)).map fun d => (f, d)
  (sortBy ymdLe (dedupFirst (joined.map fun fd =>
      (fd.2.pickup_year, fd.2.pickup_month, fd.2.pickup_day)))).map fun k =>
    let grp := joined.filter fun fd =>
      decide (fd.2.pickup_year = k.1 ∧ fd.2.pickup_month = k.2.1 ∧ fd.2.pickup_day = k.2.2)
    { pickup_year := k.1
      pickup_month := k.2.1
      pickup_day := k.2.2
      num_trips := grp.length
      avg_fare := ratAvg (grp.map fun fd => fd.1.fare_amount)
      total_revenue := (grp.map fun fd => fd.1.total_amount).sum
      avg_distance := ratAvg (grp.map fun fd => fd.1.trip_distance)
      avg_duration := ratAvg (grp.map fun fd => (fd.1.trip_duration : Rat)) }

/-- The overall block of the summary report. -/
structure OverallStats where
  total_trips : Nat
  total_revenue : Rat
  avg_distance : Rat
  avg_duration_minutes : Rat
deriving DecidableEq, Repr

/-- Python `round(x, 2)` on exact decimal values. -/
def round2 (q : Rat) : Rat := ((round (q * 100) : Int) : Rat) / 100

/-- The streaming aggregate `COUNT(*), SUM(total_amount),
AVG(trip_distance), AVG(trip_duration)` accumulates one pass over
`fact_trips`: `(count, sum total, sum distance, sum duration)`. -/
def sumAgg (fact : List etl.FactRow) : Nat × Rat × Rat × Rat :=
  fact.foldl (fun acc f =>
      (acc.1 + 1, acc.2.1 + f.total_amount, acc.2.2.1 + f.trip_distance,
        acc.2.2.2 + (f.trip_duration : Rat)))
    (0, 0, 0, 0)

/-- `generate_summary_report` (also the overall block of
`export_data_to_files` in `mage_files/uber_data_exporter.py`, which runs the
same query): `COUNT(*)`, `round(SUM(total_amount), 2)`,
`round(AVG(trip_distance), 2)`, `round(AVG(trip_duration)/60, 2)`.  On an
empty fact table the SQL aggregates are `NULL` and `float(None)` raises, so
the result is `none`. -/
def generate_summary_report (fact : List etl.FactRow) : Option OverallStats :=
  let a := sumAgg fact
  if fact.isEmpty then none
  else some
    { total_trips := a.1
      total_revenue := round2 a.2.1
      avg_distance := round2 (a.2.2.1 / (a.1 : Rat))
      avg_duration_minutes := round2 (a.2.2.2 / (a.1 : Rat) / 60) }

end load

/-- Orphan count of one fact foreign-key column against a list of dimension
primary keys: the `LEFT JOIN ... WHERE pk IS NULL` count of the spec's
referential check. -/
def orphanCount (fact : List etl.FactRow) (fk : etl.FactRow → Int)
    (dimIds : List Int) : Nat :=
  (fact.filter fun f => !(dimIds.any fun i => decide (i = fk f))).length

/-! ## Structural lemmas about the SQL variant's dimensions and fact join -/

theorem etl_dd_map_key (rs : List RawRecord) :
    (etl.transform_datetime_dimension rs).map etl.dtRowKey = rs.map etl.dtKey :=
  rowNumber_map_key etl.mkDatetimeRow etl.dtRowKey etl.dtKey (fun _ _ => rfl) 1 rs

theorem etl_dl_map_key (rs : List RawRecord) :
    (etl.transform_location_dimension rs).map etl.locRowKey
      = dedupFirst (rs.map etl.locKey) := by
  have h := rowNumber_map_key etl.mkLocationRow etl.locRowKey (fun k => k)
    (fun _ _ => rfl) 1 (dedupFirst (rs.map etl.locKey))
  simpa using h

theorem etl_dp_map_key (rs : List RawRecord) :
    (etl.transform_payment_dimension rs).map (·.payment_type)
      = dedupFirst (rs.map (·.payment_type)) := by
  have h := rowNumber_map_key etl.mkPaymentRow (fun p : etl.PaymentRow => p.payment_type)
    (fun c => c) (fun _ _ => rfl) 1 (dedupFirst (rs.map (·.payment_type)))
  simpa using h

theorem etl_dq_map_key (rs : List RawRecord) :
    (etl.transform_passenger_dimension rs).map (·.passenger_count)
      = dedupFirst (rs.map (·.passenger_count)) := by
  have h := rowNumber_map_key etl.mkPassengerRow
    (fun p : etl.PassengerRow => p.passenger_count) (fun c => c) (fun _ _ => rfl) 1
    (dedupFirst (rs.map (·.passenger_count)))
  simpa using h

theorem etl_dd_filter_singleton (rs : List RawRecord)
    (hnd : (rs.map etl.dtKey).Nodup) (s : RawRecord) (hs : s ∈ rs) :
    ∃ d ∈ etl.transform_datetime_dimension rs,
      (etl.transform_datetime_dimension rs).filter (fun d' =>
          decide (d'.pickup_datetime = s.pickup_datetime ∧
                  d'.dropoff_datetime = s.dropoff_datetime)) = [d] ∧
      etl.dtRowKey d = etl.dtKey s := by
  obtain ⟨d, hd, hkey⟩ := rowNumber_exists_key etl.mkDatetimeRow etl.dtRowKey etl.dtKey
    (fun _ _ => rfl) 1 rs s hs
  refine ⟨d, hd, ?_, hkey⟩
  have hcong : (etl.transform_datetime_dimension rs).filter (fun d' =>
      decide (d'.pickup_datetime = s.pickup_datetime ∧
              d'.dropoff_datetime = s.dropoff_datetime))
      = (etl.transform_datetime_dimension rs).filter (fun d' =>
          decide (etl.dtRowKey d' = etl.dtRowKey d)) := by
    apply List.filter_congr
    intro x _
    apply decide_eq_decide.mpr
    rw [hkey]
    simp [etl.dtRowKey, etl.dtKey, Prod.ext_iff]
  rw [hcong]
  have hd' : d ∈ etl.transform_datetime_dimension rs := hd
  apply filter_key_singleton etl.dtRowKey _ _ d hd'
  rw [etl_dd_map_key rs]
  exact hnd

theorem etl_dl_filter_singleton (rs : List RawRecord) (s : RawRecord) (hs : s ∈ rs) :
    ∃ l ∈ etl.transform_location_dimension rs,
      (etl.transform_location_dimension rs).filter (fun l' =>
          decide (l'.pickup_latitude = s.pickup_latitude ∧
                  l'.pickup_longitude = s.pickup_longitude ∧
                  l'.dropoff_latitude = s.dropoff_latitude ∧
                  l'.dropoff_longitude = s.dropoff_longitude)) = [l] ∧
      etl.locRowKey l = etl.locKey s := by
  have hmem : etl.locKey s ∈ dedupFirst (rs.map etl.locKey) :=
    (mem_dedupFirst _ _).mpr (List.mem_map_of_mem etl.locKey hs)
  obtain ⟨l, hl, hkey⟩ := rowNumber_exists_key etl.mkLocationRow etl.locRowKey
    (fun k => k) (fun _ _ => rfl) 1 (dedupFirst (rs.map etl.locKey)) (etl.locKey s) hmem
  refine ⟨l, hl, ?_, hkey⟩
  have hcong : (etl.transform_location_dimension rs).filter (fun l' =>
      decide (l'.pickup_latitude = s.pickup_latitude ∧
              l'.pickup_longitude = s.pickup_longitude ∧
              l'.dropoff_latitude = s.dropoff_latitude ∧
              l'.dropoff_longitude = s.dropoff_longitude))
      = (etl.transform_location_dimension rs).filter (fun l' =>
          decide (etl.locRowKey l' = etl.locRowKey l)) := by
    apply List.filter_congr
    intro x _
    apply decide_eq_decide.mpr
    rw [hkey]
    simp [etl.locRowKey, etl.locKey, Prod.ext_iff]
  rw [hcong]
  have hl' : l ∈ etl.transform_location_dimension rs := hl
  apply filter_key_singleton etl.locRowKey _ _ l hl'
  rw [etl_dl_map_key rs]
  exact nodup_dedupFirst _

theorem etl_dp_filter_singleton (rs : List RawRecord) (s : RawRecord) (hs : s ∈ rs) :
    ∃ p ∈ etl.transform_payment_dimension rs,
      (etl.transform_payment_dimension rs).filter (fun p' =>
          decide (p'.payment_type = s.payment_type)) = [p] ∧
      p.payment_type = s.payment_type := by
  have hmem : s.payment_type ∈ dedupFirst (rs.map (·.payment_type)) :=
    (mem_dedupFirst _ _).mpr (List.mem_map_of_mem (·.payment_type) hs)
  obtain ⟨p, hp, hkey⟩ := rowNumber_exists_key etl.mkPaymentRow
    (fun p : etl.PaymentRow => p.payment_type) (fun c => c) (fun _ _ => rfl) 1
    (dedupFirst (rs.map (·.payment_type))) s.payment_type hmem
  refine ⟨p, hp, ?_, hkey⟩
  have hcong : (etl.transform_payment_dimension rs).filter (fun p' =>
      decide (p'.payment_type = s.payment_type))
      = (etl.transform_payment_dimension rs).filter (fun p' =>
          decide (p'.payment_type = p.payment_type)) := by
    apply List.filter_congr
    intro x _
    apply decide_eq_decide.mpr
    rw [hkey]
  rw [hcong]
  have hp' : p ∈ etl.transform_payment_dimension rs := hp
  apply filter_key_singleton (fun p : etl.PaymentRow => p.payment_type) _ _ p hp'
  rw [etl_dp_map_key rs]
  exact nodup_dedupFirst _

theorem etl_dq_filter_singleton (rs : List RawRecord) (s : RawRecord) (hs : s ∈ rs) :
    ∃ q ∈ etl.transform_passenger_dimension rs,
      (etl.transform_passenger_dimension rs).filter (fun q' =>
          decide (q'.passenger_count = s.passenger_count)) = [q] ∧
      q.passenger_count = s.passenger_count := by
  have hmem : s.passenger_count ∈ dedupFirst (rs.map (·.passenger_count)) :=
    (mem_dedupFirst _ _).mpr (List.mem_map_of_mem (·.passenger_count) hs)
  obtain ⟨q, hq, hkey⟩ := rowNumber_exists_key etl.mkPassengerRow
    (fun q : etl.PassengerRow => q.passenger_count) (fun c => c) (fun _ _ => rfl) 1
    (dedupFirst (rs.map (·.passenger_count))) s.passenger_count hmem
  refine ⟨q, hq, ?_, hkey⟩
  have hcong : (etl.transform_passenger_dimension rs).filter (fun q' =>
      decide (q'.passenger_count = s.passenger_count))
      = (etl.transform_passenger_dimension rs).filter (fun q' =>
          decide (q'.passenger_count = q.passenger_count)) := by
    apply List.filter_congr
    intro x _
    apply decide_eq_decide.mpr
    rw [hkey]
  rw [hcong]
  have hq' : q ∈ etl.transform_passenger_dimension rs := hq
  apply filter_key_singleton (fun q : etl.PassengerRow => q.passenger_count) _ _ q hq'
  rw [etl_dq_map_key rs]
  exact nodup_dedupFirst _

theorem etl_joinMatches_singleton (rs : List RawRecord)
    (hnd : (rs.map etl.dtKey).Nodup) (s : RawRecord) (hs : s ∈ rs) :
    ∃ t : etl.JoinTuple,
      etl.joinMatches (etl.transform_datetime_dimension rs)
        (etl.transform_location_dimension rs) (etl.transform_payment_dimension rs)
        (etl.transform_passenger_dimension rs) s = [t] ∧ t.1 = s := by
  obtain ⟨d, _, hdf, _⟩ := etl_dd_filter_singleton rs hnd s hs
  obtain ⟨l, _, hlf, _⟩ := etl_dl_filter_singleton rs s hs
  obtain ⟨p, _, hpf, _⟩ := etl_dp_filter_singleton rs s hs
  obtain ⟨q, _, hqf, _⟩ := etl_dq_filter_singleton rs s hs
  refine ⟨(s, d, l, p, q), ?_, rfl⟩
  unfold etl.joinMatches
  rw [hdf, hlf, hpf, hqf]
  rfl

theorem etl_joinTuples_length (rs : List RawRecord)
    (hnd : (rs.map etl.dtKey).Nodup) : (etl.joinTuples rs).length = rs.length := by
  apply flatMap_length_one
  intro s hs
  obtain ⟨t, ht, _⟩ := etl_joinMatches_singleton rs hnd s hs
  simp [ht]

theorem etl_joinTuples_get?_fst (rs : List RawRecord)
    (hnd : (rs.map etl.dtKey).Nodup) (i : Nat) :
    ((etl.joinTuples rs).get? i).map (fun t : etl.JoinTuple => t.1) = rs.get? i := by
  apply flatMap_singleton_get?
  intro s hs
  obtain ⟨t, ht, hfst⟩ := etl_joinMatches_singleton rs hnd s hs
  exact ⟨t, ht, hfst⟩

theorem etl_fact_length (rs : List RawRecord)
    (hnd : (rs.map etl.dtKey).Nodup) :
    (etl.transform_fact_table rs).length = rs.length := by
  rw [etl.transform_fact_table, rowNumber_length, etl_joinTuples_length rs hnd]

theorem etl_fact_trip_ids (rs : List RawRecord)
    (hnd : (rs.map etl.dtKey).Nodup) (i : Nat) :
    ((etl.transform_fact_table rs).get? i).map (·.trip_id)
      = (rs.get? i).map (fun _ => (i : Int) + 1) := by
  have h1 := etl_joinTuples_get?_fst rs hnd i
  rw [etl.transform_fact_table, rowNumber_get?]
  cases hj : (etl.joinTuples rs).get? i with
  | none =>
    rw [hj] at h1
    rw [Option.map_none'] at h1 ⊢
    rw [Option.map_none', ← h1, Option.map_none']
  | some t =>
    rw [hj] at h1
    rw [Option.map_some'] at h1
    rw [Option.map_some', Option.map_some', ← h1, Option.map_some']
    show some ((1 + i : Nat) : Int) = some ((i : Int) + 1)
    congr 1
    push_cast
    ring

theorem etl_fact_totals (rs : List RawRecord)
    (hnd : (rs.map etl.dtKey).Nodup) (i : Nat) :
    ((etl.transform_fact_table rs).get? i).map (·.total_amount)
      = (rs.get? i).map (·.total_amount) := by
  have h1 := etl_joinTuples_get?_fst rs hnd i
  rw [etl.transform_fact_table, rowNumber_get?]
  cases hj : (etl.joinTuples rs).get? i with
  | none =>
    rw [hj] at h1
    rw [Option.map_none'] at h1 ⊢
    rw [Option.map_none', ← h1, Option.map_none']
  | some t =>
    rw [hj] at h1
    rw [Option.map_some'] at h1
    rw [Option.map_some', Option.map_some', ← h1, Option.map_some']
    rfl

theorem etl_fact_mem_decomp (rs : List RawRecord) (fr : etl.FactRow)
    (hfr : fr ∈ etl.transform_fact_table rs) :
    ∃ s ∈ rs, ∃ d ∈ etl.transform_datetime_dimension rs,
      ∃ l ∈ etl.transform_location_dimension rs,
      d.pickup_datetime = s.pickup_datetime ∧
      d.dropoff_datetime = s.dropoff_datetime ∧
      l.pickup_latitude = s.pickup_latitude ∧
      l.pickup_longitude = s.pickup_longitude ∧
      l.dropoff_latitude = s.dropoff_latitude ∧
      l.dropoff_longitude = s.dropoff_longitude ∧
      fr.datetime_id = d.datetime_id ∧ fr.location_id = l.location_id ∧
      fr.trip_duration = s.dropoff_datetime - s.pickup_datetime ∧
      fr.total_amount = s.total_amount := by
  rw [etl.transform_fact_table] at hfr
  obtain ⟨j, t, ht, rfl⟩ := rowNumber_mem _ _ _ fr hfr
  rw [etl.joinTuples, List.mem_flatMap] at ht
  obtain ⟨s, hs, ht⟩ := ht
  unfold etl.joinMatches at ht
  rw [List.mem_flatMap] at ht
  obtain ⟨d, hd, ht⟩ := ht
  rw [List.mem_filter] at hd
  obtain ⟨hd, hdpred⟩ := hd
  rw [List.mem_flatMap] at ht
  obtain ⟨l, hl, ht⟩ := ht
  rw [List.mem_filter] at hl
  obtain ⟨hl, hlpred⟩ := hl
  rw [List.mem_flatMap] at ht
  obtain ⟨p, hp, ht⟩ := ht
  rw [List.mem_map] at ht
  obtain ⟨q, hq, rfl⟩ := ht
  simp only [decide_eq_true_eq] at hdpred hlpred
  exact ⟨s, hs, d, hd, l, hl, hdpred.1, hdpred.2, hlpred.1, hlpred.2.1,
    hlpred.2.2.1, hlpred.2.2.2, rfl, rfl, rfl, rfl⟩

/-! ## Lemmas about the Mage variant's frames -/

theorem mage_fact_length (df : List RawRecord) :
    (mage.fact_trips df).length = df.length :=
  rowNumber_length _ 0 df

theorem mage_fact_trip_ids (df : List RawRecord) (i : Nat) :
    ((mage.fact_trips df).get? i).map
        (fun fr => (fr.trip_id, fr.datetime_id, fr.location_id))
      = (df.get? i).map (fun _ => ((i : Int), (i : Int), (i : Int))) := by
  rw [mage.fact_trips, rowNumber_get?]
  cases h : df.get? i <;> simp [mage.mkFactRow]

theorem mage_fact_duration (df : List RawRecord) (i : Nat) :
    ((mage.fact_trips df).get? i).map (·.trip_duration)
      = (df.get? i).map (fun r => r.dropoff_datetime - r.pickup_datetime) := by
  rw [mage.fact_trips, rowNumber_get?]
  cases h : df.get? i <;> simp [mage.mkFactRow]

theorem mage_dd_pickup (df : List RawRecord) (i : Nat) :
    ((mage.dim_datetime df).get? i).map (·.pickup_datetime)
      = (df.get? i).map (·.pickup_datetime) := by
  rw [mage.dim_datetime, rowNumber_get?]
  cases h : df.get? i <;> simp [mage.mkDatetimeRow]

theorem mage_dp_map_key (df : List RawRecord) :
    (mage.dim_payment df).map (·.payment_name)
      = dedupFirst (df.map (·.payment_type)) := by
  have h := rowNumber_map_key mage.mkPaymentRow
    (fun p : mage.PaymentRow => p.payment_name) (fun c => c) (fun _ _ => rfl) 0
    (dedupFirst (df.map (·.payment_type)))
  simpa using h

theorem mage_dq_map_key (df : List RawRecord) :
    (mage.dim_passenger df).map (·.passenger_count)
      = dedupFirst (df.map (·.passenger_count)) := by
  have h := rowNumber_map_key mage.mkPassengerRow
    (fun p : mage.PassengerRow => p.passenger_count) (fun c => c) (fun _ _ => rfl) 0
    (dedupFirst (df.map (·.passenger_count)))
  simpa using h

theorem mage_dd_countP (df : List RawRecord) (i : Nat) (h : i < df.length) :
    (mage.dim_datetime df).countP (fun d => decide (d.datetime_id = (i : Int))) = 1 := by
  have hc := rowNumber_countP_id mage.mkDatetimeRow
    (fun d : mage.DatetimeRow => d.datetime_id) (fun _ _ => rfl) 0 i df
  simp only [Nat.zero_add] at hc
  rw [mage.dim_datetime, hc, if_pos h]

theorem mage_dl_countP (df : List RawRecord) (i : Nat) (h : i < df.length) :
    (mage.dim_location df).countP (fun l => decide (l.location_id = (i : Int))) = 1 := by
  have hc := rowNumber_countP_id mage.mkLocationRow
    (fun l : mage.LocationRow => l.location_id) (fun _ _ => rfl) 0 i df
  simp only [Nat.zero_add] at hc
  rw [mage.dim_location, hc, if_pos h]

/-! ## Lemmas about the summary aggregation -/

theorem sumAgg_go (fact : List etl.FactRow) (a : Nat × Rat × Rat × Rat) :
    fact.foldl (fun acc f =>
        (acc.1 + 1, acc.2.1 + f.total_amount, acc.2.2.1 + f.trip_distance,
          acc.2.2.2 + (f.trip_duration : Rat))) a
      = (a.1 + fact.length, a.2.1 + (fact.map (·.total_amount)).sum,
         a.2.2.1 + (fact.map (·.trip_distance)).sum,
         a.2.2.2 + (fact.map (fun f => (f.trip_duration : Rat))).sum) := by
  induction fact generalizing a with
  | nil => simp
  | cons f fs ih =>
    simp only [List.foldl_cons, ih, List.map_cons, List.sum_cons, List.length_cons,
      Prod.mk.injEq]
    refine ⟨by omega, by ring, by ring, by ring⟩

theorem sumAgg_spec (fact : List etl.FactRow) :
    load.sumAgg fact
      = (fact.length, (fact.map (·.total_amount)).sum,
         (fact.map (·.trip_distance)).sum,
         (fact.map (fun f => (f.trip_duration : Rat))).sum) := by
  rw [load.sumAgg, sumAgg_go]
  simp

theorem any_map_key {α β : Type} (l : List α) (g : α → β) (p : β → Bool) :
    (l.map g).any p = l.any (fun a => p (g a)) := by
  induction l with
  | nil => rfl
  | cons a as ih => simp [ih]

/-! ## Lemmas about the SQL validator -/

theorem etl_validate_ok_iff (fact : List etl.FactRow) (dd : List etl.DatetimeRow)
    (dl : List etl.LocationRow) :
    etl.validate_transformations fact dd dl = Except.ok () ↔
      (orphanCount fact (·.datetime_id) (dd.map (·.datetime_id)) = 0 ∧
       orphanCount fact (·.location_id) (dl.map (·.location_id)) = 0) := by
  have hdc : orphanCount fact (·.datetime_id) (dd.map (·.datetime_id))
      = (fact.filter fun f =>
          !(dd.any fun d => decide (d.datetime_id = f.datetime_id))).length := by
    unfold orphanCount
    congr 1
    apply List.filter_congr
    intro f _
    congr 1
    exact any_map_key dd (fun d => d.datetime_id) fun i => decide (i = f.datetime_id)
  have hlc : orphanCount fact (·.location_id) (dl.map (·.location_id))
      = (fact.filter fun f =>
          !(dl.any fun l => decide (l.location_id = f.location_id))).length := by
    unfold orphanCount
    congr 1
    apply List.filter_congr
    intro f _
    congr 1
    exact any_map_key dl (fun l => l.location_id) fun i => decide (i = f.location_id)
  rw [hdc, hlc]
  unfold etl.validate_transformations
  dsimp only
  split_ifs with h1 h2
  · constructor
    · intro h; simp at h
    · rintro ⟨ha, _⟩; omega
  · constructor
    · intro h; simp at h
    · rintro ⟨_, hb⟩; omega
  · constructor
    · intro _; exact ⟨by omega, by omega⟩
    · intro _; rfl

/-! ## Concrete records used by witnesses and counterexamples -/

def rA : RawRecord :=
  { pickup_datetime := 0, dropoff_datetime := 600
    pickup_latitude := 40, pickup_longitude := -74
    dropoff_latitude := 41, dropoff_longitude := -73
    passenger_count := 1, trip_distance := 2
    fare_amount := 10, tip_amount := 1, total_amount := 11
    payment_type := 1 }

def rB : RawRecord :=
  { rA with pickup_datetime := 1000, dropoff_datetime := 1900, payment_type := 2 }

def rC : RawRecord :=
  { rA with pickup_datetime := 2000, dropoff_datetime := 3100 }

/-! ## Concrete tables used by witnesses and counterexamples -/

def ddA : List etl.DatetimeRow := [etl.mkDatetimeRow 1 rA]

def dlA : List etl.LocationRow := [etl.mkLocationRow 1 (etl.locKey rA)]

/-- A fact row with valid datetime/location keys but a negative fare. -/
def negFareRow : etl.FactRow :=
  { trip_id := 1, datetime_id := 1, location_id := 1, payment_id := 1
    passenger_id := 1, trip_distance := 2, fare_amount := -5, tip_amount := 0
    total_amount := -5, trip_duration := 600 }

/-- A fact row whose payment foreign key (99) exists in no payment
dimension row, while datetime and location keys resolve. -/
def orphanPayRow : etl.FactRow :=
  { trip_id := 1, datetime_id := 1, location_id := 1, payment_id := 99
    passenger_id := 1, trip_distance := 2, fare_amount := 10, tip_amount := 1
    total_amount := 11, trip_duration := 600 }

/-- A Mage fact row with resolved keys and a negative fare. -/
def negFareMageRow : mage.FactRow :=
  { trip_id := 0, datetime_id := 0, location_id := 0, payment_id := some 0
    passenger_id := some 0, trip_distance := 2, trip_duration := 600
    fare_amount := -5, tip_amount := 0, total_amount := -5 }

/-! ## The claims -/

/-- **C1** (amended).  In the Mage variant the fact table **always** —
for every raw batch, duplicate timestamp pairs included — has exactly one
row per raw record, with the surrogate trip key equal to the row's input
position.  In the SQL variant the same holds — one fact row per raw record,
trip keys `1, 2, …` assigned sequentially in input order, row `i` carrying
the measures of raw record `i` — provided the `(pickup, dropoff)` timestamp
pairs are pairwise distinct across the raw batch; duplicate timestamp pairs
instead fan out (see the counterexample). -/
theorem fact_resolver_one_row_per_record (rs : List RawRecord) :
    (mage.fact_trips rs).length = rs.length ∧
    (∀ i : Nat, ((mage.fact_trips rs).get? i).map
        (fun fr => (fr.trip_id, fr.datetime_id, fr.location_id))
        = (rs.get? i).map (fun _ => ((i : Int), (i : Int), (i : Int)))) ∧
    ((rs.map etl.dtKey).Nodup →
      (etl.transform_fact_table rs).length = rs.length ∧
      (∀ i : Nat, ((etl.transform_fact_table rs).get? i).map (·.trip_id)
          = (rs.get? i).map (fun _ => (i : Int) + 1)) ∧
      (∀ i : Nat, ((etl.transform_fact_table rs).get? i).map (·.total_amount)
          = (rs.get? i).map (·.total_amount))) :=
  ⟨mage_fact_length rs, mage_fact_trip_ids rs,
    fun hnd => ⟨etl_fact_length rs hnd, etl_fact_trip_ids rs hnd,
      etl_fact_totals rs hnd⟩⟩

/-- **C1** counterexample: a batch of two raw records with identical
`(pickup, dropoff)` timestamp pairs yields **four** fact rows in the SQL
variant — each record joins both value-equal datetime dimension rows — not
one row per raw record as the claim states. -/
theorem fact_resolver_fanout :
    [rA, rA].length = 2 ∧ (etl.transform_fact_table [rA, rA]).length = 4 :=
  ⟨rfl, by decide⟩

/-- **C1** witness: the Mage conjunct at a concrete duplicate-timestamp
batch (where the SQL variant fans out), and the SQL conjunct at a concrete
batch with distinct timestamp pairs, its hypothesis discharged. -/
theorem fact_resolver_one_row_per_record_witness :
    (mage.fact_trips [rA, rA]).length = [rA, rA].length ∧
    (etl.transform_fact_table [rA, rB]).length = [rA, rB].length :=
  ⟨(fact_resolver_one_row_per_record [rA, rA]).1,
   ((fact_resolver_one_row_per_record [rA, rB]).2.2 (by decide)).1⟩

/-- **C2** (amended).  The Mage validator `validate_transformed_data` fails
whenever any fact row has a negative `trip_distance`, `trip_duration` or
`fare_amount`; with resolved keys and the earlier checks passing, a negative
fare fails with exactly the error naming the fare field; and when all three
measures are non-negative in every row (and no key is null) validation
passes returning the input.  The SQL variant's `validate_transformations`
performs no value-domain check at all, so there a negative fare passes
silently (see the counterexample). -/
theorem value_domain_validation (df : List mage.FactRow) :
    ((∃ r ∈ df, r.trip_distance < 0 ∨ r.trip_duration < 0 ∨ r.fare_amount < 0) →
        ∀ out, mage.validate_transformed_data df ≠ Except.ok out) ∧
    ((∀ r ∈ df, r.payment_id.isSome ∧ r.passenger_id.isSome) →
      (∀ r ∈ df, 0 ≤ r.trip_distance) →
      (∀ r ∈ df, 0 ≤ r.trip_duration) →
      (∃ r ∈ df, r.fare_amount < 0) →
      mage.validate_transformed_data df = Except.error "Found negative fare amounts") ∧
    ((∀ r ∈ df, 0 ≤ r.trip_distance ∧ 0 ≤ r.trip_duration ∧ 0 ≤ r.fare_amount) →
      (∀ r ∈ df, r.payment_id.isSome ∧ r.passenger_id.isSome) →
      mage.validate_transformed_data df = Except.ok df) := by
  refine ⟨?_, ?_, ?_⟩
  · rintro ⟨r, hr, hneg⟩ out hout
    unfold mage.validate_transformed_data at hout
    split_ifs at hout with h1 h2 h3 h4
    rcases hneg with h | h | h
    · exact h2 (List.any_eq_true.mpr ⟨r, hr, decide_eq_true h⟩)
    · exact h3 (List.any_eq_true.mpr ⟨r, hr, decide_eq_true h⟩)
    · exact h4 (List.any_eq_true.mpr ⟨r, hr, decide_eq_true h⟩)
  · intro hnn hdist hdur hfare
    have h1 : (df.any fun r => r.payment_id.isNone || r.passenger_id.isNone) = false := by
      rw [List.any_eq_false]
      intro r hr
      obtain ⟨hp, hq⟩ := hnn r hr
      simp only [Bool.or_eq_true, Option.isNone_iff_eq_none]
      rintro (h | h)
      · rw [h] at hp; simp at hp
      · rw [h] at hq; simp at hq
    have h2 : (df.any fun r => decide (r.trip_distance < 0)) = false := by
      rw [List.any_eq_false]
      intro r hr
      simp only [decide_eq_true_eq, not_lt]
      exact hdist r hr
    have h3 : (df.any fun r => decide (r.trip_duration < 0)) = false := by
      rw [List.any_eq_false]
      intro r hr
      simp only [decide_eq_true_eq, not_lt]
      exact hdur r hr
    have h4 : (df.any fun r => decide (r.fare_amount < 0)) = true := by
      obtain ⟨r, hr, h⟩ := hfare
      exact List.any_eq_true.mpr ⟨r, hr, decide_eq_true h⟩
    unfold mage.validate_transformed_data
    simp [h1, h2, h3, h4]
  · intro hok hnn
    have h1 : (df.any fun r => r.payment_id.isNone || r.passenger_id.isNone) = false := by
      rw [List.any_eq_false]
      intro r hr
      obtain ⟨hp, hq⟩ := hnn r hr
      simp only [Bool.or_eq_true, Option.isNone_iff_eq_none]
      rintro (h | h)
      · rw [h] at hp; simp at hp
      · rw [h] at hq; simp at hq
    have h2 : (df.any fun r => decide (r.trip_distance < 0)) = false := by
      rw [List.any_eq_false]
      intro r hr
      simp only [decide_eq_true_eq, not_lt]
      exact (hok r hr).1
    have h3 : (df.any fun r => decide (r.trip_duration < 0)) = false := by
      rw [List.any_eq_false]
      intro r hr
      simp only [decide_eq_true_eq, not_lt]
      exact (hok r hr).2.1
    have h4 : (df.any fun r => decide (r.fare_amount < 0)) = false := by
      rw [List.any_eq_false]
      intro r hr
      simp only [decide_eq_true_eq, not_lt]
      exact (hok r hr).2.2
    unfold mage.validate_transformed_data
    simp [h1, h2, h3, h4]

/-- **C2** counterexample: a fact table with a negative fare passes the SQL
variant's `validate_transformations` silently (it only counts datetime and
location orphans), contradicting "a batch containing a negative fare never
passes validation silently". -/
theorem sql_validator_passes_negative_fare :
    negFareRow.fare_amount < 0 ∧
    etl.validate_transformations [negFareRow] ddA dlA = Except.ok () :=
  ⟨by decide, rfl⟩

/-- **C2** witness: the amended theorem applied to a concrete one-row fact
table with a negative fare. -/
theorem value_domain_validation_witness :
    mage.validate_transformed_data [negFareMageRow]
      = Except.error "Found negative fare amounts" :=
  (value_domain_validation [negFareMageRow]).2.1 (by decide) (by decide) (by decide)
    ⟨negFareMageRow, List.mem_singleton.mpr rfl, by decide⟩

/-- **C3** (amended).  `validate_transformations` counts orphaned fact rows
only for the `datetime_id` and `location_id` foreign keys, and raises an
error exactly when one of those two orphan counts is nonzero; the
`payment_id` and `passenger_id` columns are never checked (see the
counterexample). -/
theorem referential_check_two_columns (fact : List etl.FactRow)
    (dd : List etl.DatetimeRow) (dl : List etl.LocationRow) :
    (∃ msg, etl.validate_transformations fact dd dl = Except.error msg) ↔
      (0 < orphanCount fact (·.datetime_id) (dd.map (·.datetime_id)) ∨
       0 < orphanCount fact (·.location_id) (dl.map (·.location_id))) := by
  have h := etl_validate_ok_iff fact dd dl
  constructor
  · rintro ⟨msg, hmsg⟩
    by_contra hcon
    push_neg at hcon
    have hok : etl.validate_transformations fact dd dl = Except.ok () :=
      h.mpr ⟨by omega, by omega⟩
    rw [hok] at hmsg
    simp at hmsg
  · intro hor
    cases hval : etl.validate_transformations fact dd dl with
    | error msg => exact ⟨msg, rfl⟩
    | ok u =>
      cases u
      have := h.mp hval
      omega

/-- **C3** counterexample: a fact row whose `payment_id` (99) matches no row
of the payment dimension built from the batch — orphan count 1 on the
payment column — still passes `validate_transformations`, refuting "counts
orphaned rows for each of the four foreign-key columns … error iff some
foreign-key column has a nonzero orphan count". -/
theorem validator_ignores_payment_orphans :
    orphanCount [orphanPayRow] (·.payment_id)
        ((etl.transform_payment_dimension [rA]).map (·.payment_id)) = 1 ∧
    etl.validate_transformations [orphanPayRow] ddA dlA = Except.ok () :=
  ⟨by decide, rfl⟩

/-- **C4** (amended).  In the SQL variant the payment dimension resolves the
human-readable name of every distinct payment code through the fixed total
`CASE` lookup — 1 ↦ "Credit Card", 2 ↦ "Cash", 3 ↦ "No Charge",
4 ↦ "Dispute", every other integer ↦ "Unknown" — which never fails.  In the
Mage variant no lookup is applied: the dimension's name column holds the raw
integer code (see the counterexample). -/
theorem payment_code_name_lookup (rs : List RawRecord) :
    (∀ p ∈ etl.transform_payment_dimension rs,
        p.payment_name = etl.paymentName p.payment_type) ∧
    etl.paymentName 1 = "Credit Card" ∧ etl.paymentName 2 = "Cash" ∧
    etl.paymentName 3 = "No Charge" ∧ etl.paymentName 4 = "Dispute" ∧
    (∀ c : Int, c ≠ 1 → c ≠ 2 → c ≠ 3 → c ≠ 4 → etl.paymentName c = "Unknown") := by
  refine ⟨?_, rfl, rfl, rfl, rfl, ?_⟩
  · intro p hp
    rw [etl.transform_payment_dimension] at hp
    obtain ⟨j, c, _, rfl⟩ := rowNumber_mem _ _ _ p hp
    rfl
  · intro c h1 h2 h3 h4
    unfold etl.paymentName
    rw [if_neg h1, if_neg h2, if_neg h3, if_neg h4]

/-- **C4** counterexample: in the Mage variant the payment dimension's name
column for a batch whose single record has code 1 holds the raw integer 1 —
an `Int`, not the string "Credit Card" — because `transform_data` builds
`dim_payment` directly from `unique()` codes with no lookup. -/
theorem mage_payment_name_raw_code :
    (mage.dim_payment [rA]).map (·.payment_name) = [1] := by decide

/-- **C4** witness: the enumerated part of the lookup at the claim's
exhaustive code set, applied through the theorem. -/
theorem payment_code_name_lookup_witness :
    etl.paymentName 0 = "Unknown" ∧ etl.paymentName 5 = "Unknown" ∧
    etl.paymentName (-1) = "Unknown" ∧
    (etl.mkPaymentRow 1 1).payment_name = etl.paymentName 1 := by
  have h := payment_code_name_lookup [rA]
  exact ⟨h.2.2.2.2.2 0 (by decide) (by decide) (by decide) (by decide),
    h.2.2.2.2.2 5 (by decide) (by decide) (by decide) (by decide),
    h.2.2.2.2.2 (-1) (by decide) (by decide) (by decide) (by decide),
    h.1 (etl.mkPaymentRow 1 1) (by decide)⟩

/-- **C5** (amended).  In the SQL variant the location dimension has exactly
one row per distinct coordinate tuple (its key column is the duplicate-free
first-appearance list of the batch's coordinate tuples), and for a batch of
three records with identical coordinate tuples and pairwise distinct
timestamp pairs the location dimension has exactly 1 row while the fact
table has 3 rows, each carrying that single location surrogate key (1).  In
the Mage variant the location dimension is not deduplicated — one row per
raw record (see the counterexample). -/
theorem location_dimension_dedup (rs : List RawRecord) (r1 r2 r3 : RawRecord)
    (hc2 : etl.locKey r2 = etl.locKey r1) (hc3 : etl.locKey r3 = etl.locKey r1)
    (hd12 : etl.dtKey r1 ≠ etl.dtKey r2) (hd13 : etl.dtKey r1 ≠ etl.dtKey r3)
    (hd23 : etl.dtKey r2 ≠ etl.dtKey r3) :
    ((etl.transform_location_dimension rs).map etl.locRowKey).Nodup ∧
    (∀ k, k ∈ (etl.transform_location_dimension rs).map etl.locRowKey
        ↔ k ∈ rs.map etl.locKey) ∧
    (etl.transform_location_dimension [r1, r2, r3]).length = 1 ∧
    (etl.transform_fact_table [r1, r2, r3]).length = 3 ∧
    (∀ fr ∈ etl.transform_fact_table [r1, r2, r3], fr.location_id = 1) := by
  have hdedup : dedupFirst ([r1, r2, r3].map etl.locKey) = [etl.locKey r1] := by
    simp [dedupFirst, dedupFirstAux, hc2, hc3]
  have hnd : ([r1, r2, r3].map etl.dtKey).Nodup := by
    simp [hd12, hd13, hd23]
  refine ⟨?_, ?_, ?_, etl_fact_length _ hnd, ?_⟩
  · rw [etl_dl_map_key]; exact nodup_dedupFirst _
  · intro k; rw [etl_dl_map_key]; exact mem_dedupFirst _ k
  · rw [etl.transform_location_dimension, hdedup, rowNumber_length]
    rfl
  · intro fr hfr
    obtain ⟨s, hs, d, hd, l, hl, _, _, _, _, _, _, _, hloc, _, _⟩ :=
      etl_fact_mem_decomp _ fr hfr
    rw [etl.transform_location_dimension, hdedup] at hl
    have hleq : l = etl.mkLocationRow 1 (etl.locKey r1) := by
      simpa [rowNumber] using hl
    rw [hloc, hleq]
    rfl

/-- **C5** counterexample: three raw records with identical coordinate
tuples produce a three-row Mage location dimension (one per record), and the
three Mage fact rows carry three different location keys 0, 1, 2 — not one
deduplicated row referenced by all fact rows. -/
theorem mage_location_no_dedup :
    etl.locKey rB = etl.locKey rA ∧ etl.locKey rC = etl.locKey rA ∧
    (mage.dim_location [rA, rB, rC]).length = 3 ∧
    (mage.fact_trips [rA, rB, rC]).map (·.location_id) = [0, 1, 2] :=
  ⟨by decide, by decide, by decide, by decide⟩

/-- **C5** witness: the amended theorem applied to the concrete scenario
batch — identical coordinates, three distinct timestamp pairs. -/
theorem location_dimension_dedup_witness :
    (etl.transform_location_dimension [rA, rB, rC]).length = 1 ∧
    (etl.transform_fact_table [rA, rB, rC]).length = 3 := by
  have h := location_dimension_dedup [rA, rB, rC] rA rB rC (by decide) (by decide)
    (by decide) (by decide) (by decide)
  exact ⟨h.2.2.1, h.2.2.2.1⟩

/-- **C6**.  In the Mage variant, fact row `i`'s `trip_duration` is
`dropoff − pickup` of raw record `i` in seconds, and the datetime dimension
row `i` stores that same record's pickup timestamp.  In the SQL variant,
every fact row's duration is `dropoff − pickup` of its source record, the
joined datetime dimension row stores exactly the source record's two
timestamps, and hence the identical formula applied to the dimension row's
fields yields the fact measure — no drift. -/
theorem trip_duration_formula (df : List RawRecord) :
    (∀ i : Nat, ((mage.fact_trips df).get? i).map (·.trip_duration)
        = (df.get? i).map (fun r => r.dropoff_datetime - r.pickup_datetime)) ∧
    (∀ i : Nat, ((mage.dim_datetime df).get? i).map (·.pickup_datetime)
        = (df.get? i).map (·.pickup_datetime)) ∧
    (∀ fr ∈ etl.transform_fact_table df, ∃ s ∈ df,
      ∃ d ∈ etl.transform_datetime_dimension df,
        fr.datetime_id = d.datetime_id ∧
        fr.trip_duration = s.dropoff_datetime - s.pickup_datetime ∧
        d.pickup_datetime = s.pickup_datetime ∧
        d.dropoff_datetime = s.dropoff_datetime ∧
        fr.trip_duration = d.dropoff_datetime - d.pickup_datetime) := by
  refine ⟨mage_fact_duration df, mage_dd_pickup df, ?_⟩
  intro fr hfr
  obtain ⟨s, hs, d, hd, l, hl, hpu, hdo, _, _, _, _, hdt, _, hdur, _⟩ :=
    etl_fact_mem_decomp _ fr hfr
  exact ⟨s, hs, d, hd, hdt, hdur, hpu, hdo, by rw [hdur, hpu, hdo]⟩

/-- The single fact row the SQL variant produces for the batch `[rA]`. -/
def frA : etl.FactRow :=
  { trip_id := 1, datetime_id := 1, location_id := 1, payment_id := 1
    passenger_id := 1, trip_distance := 2, fare_amount := 10, tip_amount := 1
    total_amount := 11, trip_duration := 600 }

/-- **C6** witness: the theorem's SQL part applied to the concrete fact row
of the one-record batch `[rA]`. -/
theorem trip_duration_formula_witness :
    ∃ s ∈ [rA], ∃ d ∈ etl.transform_datetime_dimension [rA],
      frA.datetime_id = d.datetime_id ∧
      frA.trip_duration = s.dropoff_datetime - s.pickup_datetime ∧
      d.pickup_datetime = s.pickup_datetime ∧
      d.dropoff_datetime = s.dropoff_datetime ∧
      frA.trip_duration = d.dropoff_datetime - d.pickup_datetime :=
  (trip_duration_formula [rA]).2.2 frA (by decide)

/-- **C7**.  Running the Dimension Builder twice on the same batch yields
the same dimension tables (the builders are pure functions of the ordered
batch, so key assignment is deterministic given a fixed input order), and
the deduplicating builders' natural-key columns are duplicate-free and hold
exactly the batch's distinct natural keys — so cardinality and natural-key
sets agree between any two runs. -/
theorem dimension_builder_deterministic (b : List RawRecord) :
    (etl.transform_passenger_dimension b = etl.transform_passenger_dimension b ∧
     mage.dim_payment b = mage.dim_payment b ∧
     mage.dim_passenger b = mage.dim_passenger b) ∧
    ((etl.transform_passenger_dimension b).map (·.passenger_count)).Nodup ∧
    (∀ c : Int, c ∈ (etl.transform_passenger_dimension b).map (·.passenger_count)
        ↔ c ∈ b.map (·.passenger_count)) ∧
    ((mage.dim_passenger b).map (·.passenger_count)).Nodup ∧
    (∀ c : Int, c ∈ (mage.dim_passenger b).map (·.passenger_count)
        ↔ c ∈ b.map (·.passenger_count)) ∧
    ((mage.dim_payment b).map (·.payment_name)).Nodup ∧
    (∀ c : Int, c ∈ (mage.dim_payment b).map (·.payment_name)
        ↔ c ∈ b.map (·.payment_type)) := by
  refine ⟨⟨rfl, rfl, rfl⟩, ?_, ?_, ?_, ?_, ?_, ?_⟩
  · rw [etl_dq_map_key]; exact nodup_dedupFirst _
  · intro c; rw [etl_dq_map_key]; exact mem_dedupFirst _ c
  · rw [mage_dq_map_key]; exact nodup_dedupFirst _
  · intro c; rw [mage_dq_map_key]; exact mem_dedupFirst _ c
  · rw [mage_dp_map_key]; exact nodup_dedupFirst _
  · intro c; rw [mage_dp_map_key]; exact mem_dedupFirst _ c

/-- **C8**.  On the empty raw batch both variants produce empty dimension
tables and an empty fact table, both validators pass (zero orphans, zero
domain violations), and all four aggregation views are empty; nothing
raises. -/
theorem empty_batch_behavior :
    etl.transform_datetime_dimension [] = [] ∧
    etl.transform_location_dimension [] = [] ∧
    etl.transform_payment_dimension [] = [] ∧
    etl.transform_passenger_dimension [] = [] ∧
    etl.transform_fact_table [] = [] ∧
    etl.validate_transformations (etl.transform_fact_table [])
      (etl.transform_datetime_dimension []) (etl.transform_location_dimension [])
      = Except.ok () ∧
    mage.dim_datetime [] = [] ∧ mage.dim_location [] = [] ∧
    mage.dim_payment [] = [] ∧ mage.dim_passenger [] = [] ∧
    mage.fact_trips [] = [] ∧
    mage.validate_transformed_data (mage.fact_trips []) = Except.ok [] ∧
    load.vw_hourly_fares (etl.transform_fact_table [])
      (etl.transform_datetime_dimension []) = [] ∧
    load.vw_popular_locations (etl.transform_fact_table [])
      (etl.transform_location_dimension []) = [] ∧
    load.vw_payment_analysis (etl.transform_fact_table [])
      (etl.transform_payment_dimension []) = [] ∧
    load.vw_daily_stats (etl.transform_fact_table [])
      (etl.transform_datetime_dimension []) = [] :=
  ⟨rfl, rfl, rfl, rfl, rfl, rfl, rfl, rfl, rfl, rfl, rfl, rfl, rfl, rfl, rfl, rfl⟩

/-- **C9**.  For a non-empty fact table the overall summary reports
`total_trips = COUNT(*)`, `total_revenue = round(SUM(total_amount), 2)`,
`avg_distance = round(AVG(trip_distance), 2)` and
`avg_duration_minutes = round(AVG(trip_duration)/60, 2)` — the averages
being the sums divided by the row count, the duration average divided by 60,
currency/duration fields rounded to two decimals. -/
theorem overall_summary_stats (fact : List etl.FactRow) (h : fact ≠ []) :
    load.generate_summary_report fact = some
      { total_trips := fact.length
        total_revenue := load.round2 ((fact.map (·.total_amount)).sum)
        avg_distance := load.round2
          ((fact.map (·.trip_distance)).sum / (fact.length : Rat))
        avg_duration_minutes := load.round2
          ((fact.map (fun f => (f.trip_duration : Rat))).sum
            / (fact.length : Rat) / 60) } := by
  unfold load.generate_summary_report
  dsimp only
  rw [sumAgg_spec, if_neg (by simpa [List.isEmpty_iff] using h)]

/-- Three fact rows with total amounts 10.00, 20.00 and 15.50. -/
def demoFact : List etl.FactRow :=
  [{ frA with total_amount := 10 }, { frA with total_amount := 20 },
   { frA with total_amount := 31 / 2 }]

/-- **C9** witness: the concrete scenario batch — totals 10.00, 20.00,
15.50 — reports `total_trips = 3` and `total_revenue = 45.50`. -/
theorem overall_summary_stats_witness :
    (load.generate_summary_report demoFact).map (·.total_trips) = some 3 ∧
    (load.generate_summary_report demoFact).map (·.total_revenue)
      = some (91 / 2 : Rat) := by
  have h := overall_summary_stats demoFact (by decide)
  rw [h]
  constructor
  · rfl
  · norm_num [load.round2, round_eq, demoFact, frA]

/-- **C10**.  In the Mage variant, fact row `i` has
`trip_id = datetime_id = location_id = i` (the raw row's own position), and
for every in-range index the datetime and location dimensions each contain
exactly one row with that key — the identity keys resolve to exactly one
dimension row with no value-based join. -/
theorem mage_identity_fact_keys (df : List RawRecord) :
    (∀ i : Nat, ((mage.fact_trips df).get? i).map
        (fun fr => (fr.trip_id, fr.datetime_id, fr.location_id))
        = (df.get? i).map (fun _ => ((i : Int), (i : Int), (i : Int)))) ∧
    (∀ i : Nat, i < df.length →
      (mage.dim_datetime df).countP (fun d => decide (d.datetime_id = (i : Int))) = 1 ∧
      (mage.dim_location df).countP (fun l => decide (l.location_id = (i : Int))) = 1) :=
  ⟨mage_fact_trip_ids df, fun i h => ⟨mage_dd_countP df i h, mage_dl_countP df i h⟩⟩

/-- **C10** witness: the theorem applied to a concrete two-record batch at
index 1. -/
theorem mage_identity_fact_keys_witness :
    ((mage.fact_trips [rA, rB]).get? 1).map
        (fun fr => (fr.trip_id, fr.datetime_id, fr.location_id)) = some (1, 1, 1) ∧
    (mage.dim_datetime [rA, rB]).countP
        (fun d => decide (d.datetime_id = (1 : Int))) = 1 ∧
    (mage.dim_location [rA, rB]).countP
        (fun l => decide (l.location_id = (1 : Int))) = 1 := by
  have h := mage_identity_fact_keys [rA, rB]
  have h2 := h.2 1 (by decide)
  refine ⟨?_, ?_, ?_⟩
  · simpa using h.1 1
  · simpa using h2.1
  · simpa using h2.2
